import Mathlib

/-!
# Formal model of the exercise-analysis pipeline

Shallow embedding of `backend/vision/service.py` (class `VisionService`):
the per-frame analysis loop of `analyze_video_file` together with its
helpers `calculate_angle`, `analyze_form`, `count_repetitions` and
`is_plank_position`.

Modelling conventions:
* Python floats in the frame pipeline are modelled as rationals.  The
  geometric angle computation `calculate_angle` (inverse cosine, square
  roots) is modelled over the reals, with IEEE NaN modelled as `none`:
  for zero-length vectors numpy evaluates `0.0 / 0.0`, which yields NaN
  together with a RuntimeWarning instead of raising, so the
  `except: return 0.0` branch of the Python code is never taken for
  numeric inputs and no exception path appears in the model.
* A video is modelled by `FrameSource`: whether `cv2.VideoCapture`
  opened, the container metadata `CAP_PROP_FRAME_COUNT` and
  `CAP_PROP_FPS`, and the list of frames actually decoded by
  `cap.read()`.  Pose detection and the keypoint/angle extraction of a
  decoded frame are external to the loop logic (MediaPipe plus
  `calculate_exercise_angles`); their result enters the loop as data:
  `none` when no pose was detected in the frame, otherwise the
  keypoint coordinates and the angle dictionary for that frame.
* Python dicts of angles are association lists `List (String × ℚ)`.
* `list(set(...))` is modelled as `List.dedup` (deduplication; the
  arbitrary ordering of a Python set is abstracted).
* The wall-clock field `analysis_duration` and the exact decimal
  rendering of numbers inside summary strings are not modelled.
-/

namespace VisionService

/-- `angles.get(key, default)` on a Python dict modelled as an
association list (keys are unique in all dicts the service builds). -/
def getD : List (String × ℚ) → String → ℚ → ℚ
  | [], _, d => d
  | (k, v) :: rest, key, d => if key = k then v else getD rest key d

/-- `key in angles` on a Python dict modelled as an association list. -/
def hasKey : List (String × ℚ) → String → Bool
  | [], _ => false
  | (k, _) :: rest, key => if key = k then true else hasKey rest key

/-- The two keypoint coordinates that `analyze_form` reads:
`keypoints['left_shoulder'].y` and `keypoints['left_hip'].y`
(`extract_keypoints` always populates them when a pose is detected). -/
structure Keypoints where
  left_shoulder_y : ℚ
  left_hip_y : ℚ

/-- `np.clip(x, lo, hi)`. -/
noncomputable def clip (x lo hi : ℝ) : ℝ := max lo (min x hi)

/-- `VisionService.calculate_angle` (service.py lines 53 to 72).
Forms the 2-D vectors `ba`, `bc` from the three points and returns
`math.degrees(np.arccos(np.clip(dot / (|ba| * |bc|), -1, 1)))`.
When `|ba| * |bc| = 0` (a zero-length vector, which forces `dot = 0`),
numpy computes `0.0 / 0.0 = NaN` with a RuntimeWarning — no exception
is raised, the `except` branch is not taken, and NaN propagates through
`clip`, `arccos` and `degrees`; the NaN result is modelled as `none`. -/
noncomputable def calculate_angle (point1 point2 point3 : ℝ × ℝ) : Option ℝ :=
  let ba := (point1.1 - point2.1, point1.2 - point2.2)
  let bc := (point3.1 - point2.1, point3.2 - point2.2)
  let dot := ba.1 * bc.1 + ba.2 * bc.2
  let norm_prod := Real.sqrt (ba.1 ^ 2 + ba.2 ^ 2) * Real.sqrt (bc.1 ^ 2 + bc.2 ^ 2)
  if norm_prod = 0 then none
  else some (180 / Real.pi * Real.arccos (clip (dot / norm_prod) (-1) 1))

/-- `VisionService.analyze_form` (service.py lines 182 to 252).
The score starts at `1.0`, each triggered rule subtracts its fixed
penalty and appends its message, and the final score is
`max(0.0, form_score)`.  Direct dict indexing such as
`angles['left_knee']` is guarded by the membership tests, so the
default value passed to `getD` under such a guard is irrelevant. -/
def analyze_form (keypoints : Keypoints) (angles : List (String × ℚ))
    (exercise_type : String) : ℚ × List String :=
  let result : ℚ × List String :=
    if exercise_type = "squats" then
      let a1 : ℚ × List String :=
        if hasKey angles "left_knee" = true ∧ hasKey angles "right_knee" = true ∧
           |getD angles "left_knee" 0 - getD angles "right_knee" 0| > 15 then
          (1 - 0.2, ["Keep knees aligned"])
        else (1, [])
      let avg_knee_angle := (getD angles "left_knee" 180 + getD angles "right_knee" 180) / 2
      let a2 : ℚ × List String :=
        if avg_knee_angle > 120 then
          (a1.1 - 0.1, a1.2 ++ ["Squat deeper for better range of motion"])
        else if avg_knee_angle < 70 then
          (a1.1 - 0.1, a1.2 ++ ["Don\x27t squat too deep"])
        else a1
      if keypoints.left_shoulder_y > keypoints.left_hip_y then
        (a2.1 - 0.2, a2.2 ++ ["Keep chest up and back straight"])
      else a2
    else if exercise_type = "pushups" then
      let b1 : ℚ × List String :=
        if hasKey angles "left_elbow" = true ∧ hasKey angles "right_elbow" = true ∧
           |getD angles "left_elbow" 0 - getD angles "right_elbow" 0| > 20 then
          (1 - 0.2, ["Keep elbows aligned"])
        else (1, [])
      if hasKey angles "body_angle" = true then
        if getD angles "body_angle" 0 < 160 then
          (b1.1 - 0.3, b1.2 ++ ["Keep body straight - no sagging hips"])
        else if getD angles "body_angle" 0 > 190 then
          (b1.1 - 0.2, b1.2 ++ ["Lower your hips"])
        else b1
      else b1
    else if exercise_type = "lunges" then
      if hasKey angles "front_knee" = true then
        if getD angles "front_knee" 0 < 80 then
          (1 - 0.2, ["Don\x27t let front knee go too far forward"])
        else if getD angles "front_knee" 0 > 110 then
          (1 - 0.1, ["Lunge deeper for better activation"])
        else (1, [])
      else (1, [])
    else if exercise_type = "planks" then
      let d1 : ℚ × List String :=
        if hasKey angles "back_angle" = true then
          if getD angles "back_angle" 0 < 160 then
            (1 - 0.3, ["Straighten your back"])
          else if getD angles "back_angle" 0 > 190 then
            (1 - 0.2, ["Don\x27t arch your back"])
          else (1, [])
        else (1, [])
      if keypoints.left_hip_y < keypoints.left_shoulder_y then
        (d1.1 - 0.2, d1.2 ++ ["Lower your hips"])
      else d1
    else (1, [])
  (max 0 result.1, result.2)

/-- The UP and DOWN values of the `position` entry of the repetition
state dict; the UNSET state (key absent) is `none` at `Option Position`. -/
inductive Position
  | up
  | down
deriving DecidableEq

/-- `rep_threshold_down` of the squats, pushups and lunges entries of
`exercise_configs` (all three are 90 degrees). -/
def rep_threshold_down : ℚ := 90

/-- `rep_threshold_up` of the squats, pushups and lunges entries of
`exercise_configs` (all three are 160 degrees). -/
def rep_threshold_up : ℚ := 160

/-- The repetition state machine of `count_repetitions`
(service.py lines 268 to 275), acting on the primary angle of one frame. -/
def repStep (previous_state : Option Position) (primary_angle : ℚ) :
    Bool × Option Position :=
  if previous_state = some Position.up ∧ primary_angle < rep_threshold_down then
    (false, some Position.down)
  else if previous_state = some Position.down ∧ primary_angle > rep_threshold_up then
    (true, some Position.up)
  else if previous_state = none then
    (false, some (if primary_angle > rep_threshold_up then Position.up else Position.down))
  else (false, previous_state)

/-- The keys of `exercise_configs` (service.py lines 27 to 51). -/
def exercise_config_keys : List String := ["squats", "pushups", "lunges", "planks"]

/-- The two exceptions the modelled code can raise:
`ValueError` from `analyze_video_file` when the capture does not open,
and `KeyError` from `self.exercise_configs[exercise_type]` in
`count_repetitions` for an unknown exercise type. -/
inductive AnalysisError
  | valueError (msg : String)
  | keyError (key : String)
deriving DecidableEq

/-- `VisionService.count_repetitions` (service.py lines 254 to 277).
Its first line `config = self.exercise_configs[exercise_type]` raises
`KeyError` for a type outside `exercise_config_keys`; otherwise the
primary angle is derived from the angle dict and fed to `repStep`.
For hold exercises the state is returned unchanged with no new rep. -/
def count_repetitions (exercise_type : String) (angles : List (String × ℚ))
    (previous_state : Option Position) :
    Except AnalysisError (Bool × Option Position) :=
  if exercise_type ∉ exercise_config_keys then .error (.keyError exercise_type)
  else if exercise_type = "squats" ∨ exercise_type = "pushups" ∨
          exercise_type = "lunges" then
    let primary_angle : ℚ :=
      if exercise_type = "squats" then
        (getD angles "left_knee" 180 + getD angles "right_knee" 180) / 2
      else if exercise_type = "pushups" then
        (getD angles "left_elbow" 180 + getD angles "right_elbow" 180) / 2
      else getD angles "front_knee" 180
    .ok (repStep previous_state primary_angle)
  else .ok (false, previous_state)

/-- `VisionService.is_plank_position` (service.py lines 279 to 282):
`back_angle > 160 and back_angle < 190` with `angles.get('back_angle', 0)`. -/
def is_plank_position (angles : List (String × ℚ)) : Bool :=
  decide (getD angles "back_angle" 0 > 160) && decide (getD angles "back_angle" 0 < 190)

/-- The `PlankData` record of schema.py (its `end_time` is always set
by the service when a session is appended, so it is not optional here). -/
structure PlankData where
  start_time : ℚ
  end_time : ℚ
  duration : ℚ
  form_quality : ℚ
  feedback : List String
deriving DecidableEq

/-- The plank-tracking state threaded through the loop of
`analyze_video_file`: the variables `plank_start_time`,
`current_plank_feedback` and `plank_sessions`. -/
structure PlankState where
  plank_start_time : Option ℚ
  current_plank_feedback : List String
  sessions : List PlankData

/-- `form_scores[-10:]` — the last `n` elements of a list. -/
def lastN (n : ℕ) (l : List ℚ) : List ℚ := l.drop (l.length - n)

/-- `np.mean` of a list of rationals (division by a zero length gives 0
by the Lean convention; all call sites guard against the empty list). -/
def listMean (l : List ℚ) : ℚ := l.sum / l.length

/-- `np.mean(form_scores[-10:]) if form_scores else 0.5` — the
form quality recorded when a plank session is closed. -/
def plank_form_quality (form_scores : List ℚ) : ℚ :=
  if form_scores = [] then 0.5 else listMean (lastN 10 form_scores)

/-- One frame of the plank branch of the loop (service.py lines 347
to 365): open a session when in position and none is open, close the
open session when position is lost, and accumulate feedback while in
position.  `form_scores` already includes the current frame, as in the
Python code, where `form_scores.append(form_score)` precedes this block. -/
def plankStep (form_scores : List ℚ) (timestamp : ℚ)
    (angles : List (String × ℚ)) (feedback : List String)
    (ps : PlankState) : PlankState :=
  let in_plank := is_plank_position angles
  let ps1 :=
    match ps.plank_start_time with
    | none =>
      if in_plank then
        { ps with plank_start_time := some timestamp, current_plank_feedback := [] }
      else ps
    | some s =>
      if in_plank then ps
      else
        { plank_start_time := none,
          current_plank_feedback := ps.current_plank_feedback,
          sessions := ps.sessions ++
            [{ start_time := s, end_time := timestamp, duration := timestamp - s,
               form_quality := plank_form_quality form_scores,
               feedback := ps.current_plank_feedback.dedup }] }
  if in_plank then
    { ps1 with current_plank_feedback := ps1.current_plank_feedback ++ feedback }
  else ps1

/-- The end-of-video closure of an open plank session (service.py lines
368 to 376): if a session is still open after the last frame it is
closed with `end_time = frame_count / fps`. -/
def finalize_plank (fps : ℚ) (frame_count : ℕ) (form_scores : List ℚ)
    (ps : PlankState) : PlankState :=
  match ps.plank_start_time with
  | some s =>
    { ps with sessions := ps.sessions ++
        [{ start_time := s, end_time := (frame_count : ℚ) / fps,
           duration := (frame_count : ℚ) / fps - s,
           form_quality := plank_form_quality form_scores,
           feedback := ps.current_plank_feedback.dedup }] }
  | none => ps

/-- The `RepetitionData` record of schema.py. -/
structure RepetitionData where
  rep_number : ℕ
  timestamp : ℚ
  form_quality : ℚ
  feedback : List String
deriving DecidableEq

/-- The `FormFeedback` record of schema.py. -/
structure FormFeedback where
  timestamp : ℚ
  message : String
  severity : String
deriving DecidableEq

/-- The data available for a frame in which a pose was detected: the
keypoint coordinates read by `analyze_form` and the angle dict
produced for the frame by `calculate_exercise_angles`. -/
structure FrameData where
  keypoints : Keypoints
  angles : List (String × ℚ)

/-- A video as seen by `analyze_video_file` through OpenCV:
whether the capture opened, the metadata values
`int(cap.get(cv2.CAP_PROP_FRAME_COUNT))` and `cap.get(cv2.CAP_PROP_FPS)`,
and one entry per frame actually returned by `cap.read()`
(`none` when MediaPipe detects no pose in that frame). -/
structure FrameSource where
  opened : Bool
  frame_count_prop : ℕ
  fps : ℚ
  frames : List (Option FrameData)

/-- The mutable loop variables of `analyze_video_file`
(service.py lines 294 to 305). -/
structure LoopState where
  frame_count : ℕ
  poses_detected : ℕ
  repetitions : List RepetitionData
  rep_count : ℕ
  rep_state : Option Position
  plank : PlankState
  form_scores : List ℚ
  form_feedback : List FormFeedback

/-- The loop variables before the first frame. -/
def initLoopState : LoopState :=
  { frame_count := 0, poses_detected := 0, repetitions := [], rep_count := 0,
    rep_state := none,
    plank := { plank_start_time := none, current_plank_feedback := [], sessions := [] },
    form_scores := [], form_feedback := [] }

/-- One iteration of the `while True` loop of `analyze_video_file`
(service.py lines 308 to 365) on one decoded frame.
A frame without a detected pose only advances `frame_count`.
A `KeyError` escaping `count_repetitions` aborts the analysis. -/
def processFrame (exercise_type : String) (fps : ℚ) (st : LoopState)
    (frame : Option FrameData) : Except AnalysisError LoopState :=
  let frame_count := st.frame_count + 1
  let timestamp : ℚ := (frame_count : ℚ) / fps
  match frame with
  | none => .ok { st with frame_count := frame_count }
  | some fd =>
    let fs := analyze_form fd.keypoints fd.angles exercise_type
    let form_score := fs.1
    let feedback := fs.2
    let form_scores := st.form_scores ++ [form_score]
    let form_feedback := st.form_feedback ++ feedback.map (fun m =>
      { timestamp := timestamp, message := m,
        severity := if form_score < 0.7 then "warning" else "info" })
    if exercise_type ≠ "planks" then
      match count_repetitions exercise_type fd.angles st.rep_state with
      | .error e => .error e
      | .ok (new_rep, rep_state) =>
        let rep_count := if new_rep then st.rep_count + 1 else st.rep_count
        let repetitions :=
          if new_rep then
            st.repetitions ++
              [{ rep_number := rep_count, timestamp := timestamp,
                 form_quality := form_score, feedback := feedback }]
          else st.repetitions
        .ok { frame_count := frame_count, poses_detected := st.poses_detected + 1,
              repetitions := repetitions, rep_count := rep_count,
              rep_state := rep_state, plank := st.plank,
              form_scores := form_scores, form_feedback := form_feedback }
    else
      .ok { frame_count := frame_count, poses_detected := st.poses_detected + 1,
            repetitions := st.repetitions, rep_count := st.rep_count,
            rep_state := st.rep_state,
            plank := plankStep form_scores timestamp fd.angles feedback st.plank,
            form_scores := form_scores, form_feedback := form_feedback }

/-- The whole `while True` loop, frame by frame in decode order. -/
def processAll (exercise_type : String) (fps : ℚ) :
    LoopState → List (Option FrameData) → Except AnalysisError LoopState
  | st, [] => .ok st
  | st, f :: rest =>
    match processFrame exercise_type fps st f with
    | .error e => .error e
    | .ok st' => processAll exercise_type fps st' rest

/-- The `ExerciseAnalysisResult` record of schema.py, without the
wall-clock `analysis_duration`; `consistency_score` (a real number
because of the square root in `np.std`) is the function
`consistency_score` below, computed from the `repetitions` field
exactly as in service.py line 412. -/
structure AnalysisResult where
  exercise_type : String
  total_frames : ℕ
  frames_with_pose : ℕ
  total_reps : Option ℕ
  plank_duration : Option ℚ
  repetitions : List RepetitionData
  plank_sessions : List PlankData
  average_form_score : ℚ
  overall_feedback : List String
  form_feedback : List FormFeedback
  best_rep_quality : Option ℚ

/-- `np.mean(form_scores) if form_scores else 0.0`. -/
def average_of (scores : List ℚ) : ℚ := if scores = [] then 0 else listMean scores

/-- The aggregation after the loop (service.py lines 367 to 411):
end-of-video plank closure, final metrics and the returned record.
The numbers interpolated into summary strings are rendered with
`toString` in place of Python format specifiers. -/
def mkResult (src : FrameSource) (exercise_type : String) (st : LoopState) :
    AnalysisResult :=
  let plank_final :=
    if exercise_type = "planks" then
      finalize_plank src.fps st.frame_count st.form_scores st.plank
    else st.plank
  let plank_sessions := plank_final.sessions
  let avg_form_score := average_of st.form_scores
  let total_plank_time := (plank_sessions.map PlankData.duration).sum
  let best_rep_quality := (st.repetitions.map RepetitionData.form_quality).max?
  let overall_feedback :=
    (if avg_form_score > 0.8 then ["Excellent form overall!"]
     else if avg_form_score > 0.6 then ["Good form with room for improvement"]
     else ["Focus on form - quality over quantity"]) ++
    (if exercise_type ≠ "planks" ∧ st.rep_count > 0 then
       ["Completed " ++ toString st.rep_count ++ " repetitions"]
     else if exercise_type = "planks" ∧ total_plank_time > 0 then
       ["Held plank for " ++ toString total_plank_time ++ " seconds total"]
     else [])
  { exercise_type := exercise_type,
    total_frames := src.frame_count_prop,
    frames_with_pose := st.poses_detected,
    total_reps := if exercise_type ≠ "planks" then some st.rep_count else none,
    plank_duration := if exercise_type = "planks" then some total_plank_time else none,
    repetitions := st.repetitions,
    plank_sessions := plank_sessions,
    average_form_score := avg_form_score,
    overall_feedback := overall_feedback,
    form_feedback := st.form_feedback,
    best_rep_quality := best_rep_quality }

/-- `VisionService.analyze_video_file` (service.py lines 284 to 413):
`ValueError` when the capture does not open, otherwise the loop over
all decoded frames followed by aggregation; a `KeyError` escaping the
loop aborts the whole call. -/
def analyze_video_file (src : FrameSource) (exercise_type : String) :
    Except AnalysisError AnalysisResult :=
  if src.opened = false then .error (.valueError "Could not open video file")
  else
    match processAll exercise_type src.fps initLoopState src.frames with
    | .error e => .error e
    | .ok st => .ok (mkResult src exercise_type st)

/-- Population variance, the square of `np.std`. -/
def listPopVariance (l : List ℚ) : ℚ :=
  (l.map (fun x => (x - listMean l) ^ 2)).sum / l.length

/-- `consistency_score` of the returned record (service.py line 412):
`1.0 - (np.std([rep.form_quality for rep in repetitions]) if repetitions else 0)`. -/
noncomputable def consistency_score (r : AnalysisResult) : ℝ :=
  1 - (if r.repetitions = [] then 0
       else Real.sqrt ((listPopVariance (r.repetitions.map RepetitionData.form_quality) : ℚ) : ℝ))

/-- The repetition state machine fed a list of primary angles starting
from the UNSET state: the 1-based indices of the frames at which a
repetition is emitted. -/
def repEventFramesAux : Option Position → ℕ → List ℚ → List ℕ
  | _, _, [] => []
  | st, i, a :: rest =>
    let r := repStep st a
    (if r.1 then [i] else []) ++ repEventFramesAux r.2 (i + 1) rest

/-- 1-based frame indices at which the machine, started UNSET, emits a rep. -/
def repEventFrames (l : List ℚ) : List ℕ := repEventFramesAux none 1 l

/-! ## Concrete fixtures used by scenario theorems and witnesses -/

/-- Keypoints with the shoulder above the hip in image coordinates, so
neither posture penalty of `analyze_form` fires. -/
def kp0 : Keypoints := { left_shoulder_y := 0, left_hip_y := 1 }

/-- A pose-detected squat frame whose two knee angles both equal `a`,
so the primary angle of the repetition counter is `a`. -/
def squat_frame (a : ℚ) : Option FrameData :=
  some { keypoints := kp0, angles := [("left_knee", a), ("right_knee", a)] }

/-- The Scenario A video: squat primary angles 170, 170, 85, 85, 170, 170. -/
def src_squat_scenario : FrameSource :=
  { opened := true, frame_count_prop := 6, fps := 1,
    frames := [squat_frame 170, squat_frame 170, squat_frame 85,
               squat_frame 85, squat_frame 170, squat_frame 170] }

/-- A pose-detected plank frame with back angle `a`. -/
def plank_frame (a : ℚ) : Option FrameData :=
  some { keypoints := kp0, angles := [("back_angle", a)] }

/-- The Scenario B video: plank back angles 150, 165, 175, 175, 150. -/
def src_plank_scenario : FrameSource :=
  { opened := true, frame_count_prop := 5, fps := 1,
    frames := [plank_frame 150, plank_frame 165, plank_frame 175,
               plank_frame 175, plank_frame 150] }

/-- A source that opens, reports 5 frames of metadata, but decodes only
2 frames, with no pose detected in either. -/
def src_meta : FrameSource :=
  { opened := true, frame_count_prop := 5, fps := 1, frames := [none, none] }

/-- The loop state after the two pose-free frames of `src_meta`. -/
def stMeta : LoopState := { initLoopState with frame_count := 2 }

/-- The result of analysing `src_meta` as squats. -/
def resMeta : AnalysisResult := mkResult src_meta "squats" stMeta

/-- A source that opens but decodes zero frames. -/
def src_empty : FrameSource :=
  { opened := true, frame_count_prop := 0, fps := 1, frames := [] }

/-- A source that does not open. -/
def src_closed : FrameSource :=
  { opened := false, frame_count_prop := 0, fps := 1, frames := [] }

/-- A one-frame source without any detected pose. -/
def src_nopose : FrameSource :=
  { opened := true, frame_count_prop := 1, fps := 1, frames := [none] }

/-- The loop state after the single pose-free frame of `src_nopose`. -/
def stNopose : LoopState := { initLoopState with frame_count := 1 }

/-- The result of analysing `src_nopose` as planks. -/
def resPlankNopose : AnalysisResult := mkResult src_nopose "planks" stNopose

/-- A pose-detected frame with an empty angle dict. -/
def fd_pose : FrameData := { keypoints := kp0, angles := [] }

/-- A one-frame source whose single frame has a detected pose. -/
def src_pose : FrameSource :=
  { opened := true, frame_count_prop := 1, fps := 1, frames := [some fd_pose] }

/-! ## Helper lemmas about the loop -/

/-- A frame without a detected pose only advances the frame counter. -/
theorem processFrame_none (exercise_type : String) (fps : ℚ) (st : LoopState) :
    processFrame exercise_type fps st none =
      .ok { st with frame_count := st.frame_count + 1 } := rfl

/-- Field changes of a successful plank-branch step. -/
theorem processFrame_ok_planks {fps : ℚ} {st : LoopState} {fd : FrameData}
    {st' : LoopState} (h : processFrame "planks" fps st (some fd) = .ok st') :
    st'.repetitions = st.repetitions ∧ st'.rep_count = st.rep_count ∧
    st'.poses_detected = st.poses_detected + 1 ∧
    st'.frame_count = st.frame_count + 1 ∧
    st'.form_scores = st.form_scores ++ [(analyze_form fd.keypoints fd.angles "planks").1] := by
  simp only [processFrame, ne_eq, not_true_eq_false, if_false, reduceIte,
    Except.ok.injEq] at h
  subst h
  simp

/-- Field changes of a successful repetition-branch step. -/
theorem processFrame_ok_rep {exercise_type : String} {fps : ℚ} {st : LoopState}
    {fd : FrameData} {st' : LoopState} (hex : exercise_type ≠ "planks")
    (h : processFrame exercise_type fps st (some fd) = .ok st') :
    st'.plank = st.plank ∧
    st'.poses_detected = st.poses_detected + 1 ∧
    st'.frame_count = st.frame_count + 1 ∧
    st'.form_scores = st.form_scores ++ [(analyze_form fd.keypoints fd.angles exercise_type).1] ∧
    (st'.repetitions = st.repetitions ∨
      st'.repetitions = st.repetitions ++
        [{ rep_number := st.rep_count + 1,
           timestamp := ((st.frame_count + 1 : ℕ) : ℚ) / fps,
           form_quality := (analyze_form fd.keypoints fd.angles exercise_type).1,
           feedback := (analyze_form fd.keypoints fd.angles exercise_type).2 }]) := by
  simp only [processFrame] at h
  rw [if_pos hex] at h
  cases hcr : count_repetitions exercise_type fd.angles st.rep_state with
  | error e => rw [hcr] at h; cases h
  | ok pr =>
    obtain ⟨new_rep, rs⟩ := pr
    rw [hcr] at h
    cases new_rep with
    | false =>
      simp only [Except.ok.injEq, if_false, Bool.false_eq_true, reduceIte] at h
      subst h
      simp
    | true =>
      simp only [Except.ok.injEq, if_true, reduceIte] at h
      subst h
      simp

/-- For an exercise type outside `exercise_config_keys`, any frame with
a detected pose makes the loop raise the `KeyError` of
`count_repetitions`. -/
theorem processFrame_unknown {exercise_type : String} {fps : ℚ} {st : LoopState}
    {fd : FrameData} (hx : exercise_type ∉ exercise_config_keys) :
    processFrame exercise_type fps st (some fd) = .error (.keyError exercise_type) := by
  have hneq : exercise_type ≠ "planks" := by
    intro hh
    exact hx (by simp [hh, exercise_config_keys])
  simp only [processFrame]
  rw [if_pos hneq]
  have hcr : count_repetitions exercise_type fd.angles st.rep_state =
      .error (.keyError exercise_type) := by
    simp only [count_repetitions]
    rw [if_pos hx]
  rw [hcr]

/-- Invariance of a state predicate along a successful run of the loop. -/
theorem processAll_ok_inv {exercise_type : String} {fps : ℚ} {P : LoopState → Prop}
    (hstep : ∀ st f st', processFrame exercise_type fps st f = .ok st' → P st → P st') :
    ∀ (l : List (Option FrameData)) (st st' : LoopState),
      processAll exercise_type fps st l = .ok st' → P st → P st' := by
  intro l
  induction l with
  | nil =>
    intro st st' h hP
    simp only [processAll, Except.ok.injEq] at h
    exact h ▸ hP
  | cons f rest ih =>
    intro st st' h hP
    rw [processAll] at h
    cases hf : processFrame exercise_type fps st f with
    | error e => rw [hf] at h; cases h
    | ok st1 => rw [hf] at h; exact ih st1 st' h (hstep st f st1 hf hP)

/-- Per-frame bookkeeping facts of one successful step. -/
theorem processFrame_counts {exercise_type : String} {fps : ℚ} {st : LoopState}
    {f : Option FrameData} {st' : LoopState}
    (h : processFrame exercise_type fps st f = .ok st') :
    st'.frame_count = st.frame_count + 1 ∧
    st'.poses_detected = st.poses_detected + (if f.isSome then 1 else 0) ∧
    st'.form_scores.length = st.form_scores.length + (if f.isSome then 1 else 0) := by
  cases f with
  | none =>
    rw [processFrame_none] at h
    cases h
    simp
  | some fd =>
    by_cases hex : exercise_type = "planks"
    · subst hex
      obtain ⟨_, _, hp, hf, hs⟩ := processFrame_ok_planks h
      simp [hp, hf, hs]
    · obtain ⟨_, hp, hf, hs, _⟩ := processFrame_ok_rep hex h
      simp [hp, hf, hs]

/-- Bookkeeping along a whole successful run: the frame counter advances
by the number of decoded frames, and poses and recorded scores advance
by the number of pose-detected frames. -/
theorem processAll_counts {exercise_type : String} {fps : ℚ} :
    ∀ (l : List (Option FrameData)) (st st' : LoopState),
      processAll exercise_type fps st l = .ok st' →
      st'.frame_count = st.frame_count + l.length ∧
      st'.poses_detected = st.poses_detected + l.countP (fun f => f.isSome) ∧
      st'.form_scores.length = st.form_scores.length + l.countP (fun f => f.isSome) := by
  intro l
  induction l with
  | nil =>
    intro st st' h
    simp only [processAll, Except.ok.injEq] at h
    subst h
    simp
  | cons f rest ih =>
    intro st st' h
    rw [processAll] at h
    cases hf : processFrame exercise_type fps st f with
    | error e => rw [hf] at h; cases h
    | ok st1 =>
      rw [hf] at h
      obtain ⟨h1, h2, h3⟩ := ih st1 st' h
      obtain ⟨g1, g2, g3⟩ := processFrame_counts hf
      refine ⟨?_, ?_, ?_⟩
      · rw [h1, g1, List.length_cons]; omega
      · rw [h2, g2, List.countP_cons]; cases f <;> simp <;> omega
      · rw [h3, g3, List.countP_cons]; cases f <;> simp <;> omega

/-- A run over frames that all lack a detected pose succeeds and only
advances the frame counter. -/
theorem processAll_all_none {exercise_type : String} {fps : ℚ} :
    ∀ (l : List (Option FrameData)) (st : LoopState), (∀ f ∈ l, f = none) →
      processAll exercise_type fps st l =
        .ok { st with frame_count := st.frame_count + l.length } := by
  intro l
  induction l with
  | nil => intro st _; simp [processAll]
  | cons f rest ih =>
    intro st hall
    have hf : f = none := hall f (by simp)
    subst hf
    rw [processAll]
    simp only [processFrame_none]
    rw [ih _ (fun f hf => hall f (by simp [hf]))]
    simp only [Except.ok.injEq, List.length_cons]
    congr 1
    omega

/-- With an exercise type outside `exercise_config_keys`, the run fails
with its `KeyError` at the first frame with a detected pose. -/
theorem processAll_unknown_error {exercise_type : String} {fps : ℚ}
    (hx : exercise_type ∉ exercise_config_keys) :
    ∀ (l1 : List (Option FrameData)) (fd : FrameData) (l2 : List (Option FrameData))
      (st : LoopState), (∀ f ∈ l1, f = none) →
      processAll exercise_type fps st (l1 ++ some fd :: l2) =
        .error (.keyError exercise_type) := by
  intro l1
  induction l1 with
  | nil =>
    intro fd l2 st _
    rw [List.nil_append, processAll]
    simp only [processFrame_unknown hx]
  | cons f rest ih =>
    intro fd l2 st hall
    have hf : f = none := hall f (by simp)
    subst hf
    rw [List.cons_append, processAll]
    simp only [processFrame_none]
    exact ih fd l2 _ (fun f hf => hall f (by simp [hf]))

/-- Successful analysis decomposes into the opened check, a successful
run of the loop, and the aggregation `mkResult`. -/
theorem analyze_ok_elim {src : FrameSource} {exercise_type : String}
    {r : AnalysisResult} (h : analyze_video_file src exercise_type = .ok r) :
    src.opened = true ∧
    ∃ st, processAll exercise_type src.fps initLoopState src.frames = .ok st ∧
      r = mkResult src exercise_type st := by
  unfold analyze_video_file at h
  by_cases hop : src.opened = false
  · rw [if_pos hop] at h; cases h
  · rw [if_neg hop] at h
    refine ⟨by simpa using hop, ?_⟩
    cases hpa : processAll exercise_type src.fps initLoopState src.frames with
    | error e => rw [hpa] at h; cases h
    | ok st =>
      rw [hpa] at h
      simp only [Except.ok.injEq] at h
      exact ⟨st, rfl, h.symm⟩

/-! ## Bounds on scores, means and the variance -/

/-- The per-frame form score is between 0 and 1 for every input:
it starts at 1, only subtracts the fixed nonnegative penalties, and is
floored at 0 by the final `max`. -/
theorem analyze_form_score_bounds (keypoints : Keypoints)
    (angles : List (String × ℚ)) (exercise_type : String) :
    0 ≤ (analyze_form keypoints angles exercise_type).1 ∧
    (analyze_form keypoints angles exercise_type).1 ≤ 1 := by
  unfold analyze_form
  refine ⟨le_max_left 0 _, max_le (by norm_num) ?_⟩
  simp only [apply_ite (fun p : ℚ × List String => p.1)]
  split_ifs <;> norm_num

/-- The mean of a list of nonnegative rationals is nonnegative. -/
theorem listMean_nonneg {l : List ℚ} (h : ∀ x ∈ l, 0 ≤ x) : 0 ≤ listMean l :=
  div_nonneg (List.sum_nonneg h) (Nat.cast_nonneg _)

/-- The mean of a nonempty list of rationals bounded by 1 is at most 1. -/
theorem listMean_le_one {l : List ℚ} (hne : l ≠ []) (h : ∀ x ∈ l, x ≤ 1) :
    listMean l ≤ 1 := by
  unfold listMean
  rw [div_le_one (by exact_mod_cast List.length_pos.mpr hne)]
  have hs := List.sum_le_card_nsmul l 1 h
  simpa using hs

/-- Population variance of a nonempty list of values in the unit
interval is at most 1 (each squared deviation is at most 1). -/
theorem listPopVariance_le_one {l : List ℚ} (hne : l ≠ [])
    (h : ∀ x ∈ l, 0 ≤ x ∧ x ≤ 1) : listPopVariance l ≤ 1 := by
  have hm0 : 0 ≤ listMean l := listMean_nonneg (fun x hx => (h x hx).1)
  have hm1 : listMean l ≤ 1 := listMean_le_one hne (fun x hx => (h x hx).2)
  unfold listPopVariance
  rw [div_le_one (by exact_mod_cast List.length_pos.mpr hne)]
  have hb : ∀ y ∈ l.map (fun x => (x - listMean l) ^ 2), y ≤ 1 := by
    intro y hy
    obtain ⟨x, hx, rfl⟩ := List.mem_map.mp hy
    have habs : |x - listMean l| ≤ 1 :=
      abs_le.mpr ⟨by linarith [(h x hx).1], by linarith [(h x hx).2]⟩
    calc (x - listMean l) ^ 2 = |x - listMean l| ^ 2 := (sq_abs _).symm
      _ ≤ 1 ^ 2 := by
          exact pow_le_pow_left₀ (abs_nonneg _) habs 2
      _ = 1 := one_pow 2
  have hs := List.sum_le_card_nsmul _ 1 hb
  simpa using hs

/-- The variance is a mean of squares, hence nonnegative. -/
theorem listPopVariance_nonneg (l : List ℚ) : 0 ≤ listPopVariance l := by
  unfold listPopVariance
  refine div_nonneg (List.sum_nonneg ?_) (Nat.cast_nonneg _)
  intro y hy
  obtain ⟨x, _, rfl⟩ := List.mem_map.mp hy
  positivity

/-! ## Loop invariants -/

/-- All recorded frame scores and all recorded repetition qualities lie
in the unit interval. -/
def ScoreInv (st : LoopState) : Prop :=
  (∀ q ∈ st.form_scores, 0 ≤ q ∧ q ≤ 1) ∧
  (∀ rep ∈ st.repetitions, 0 ≤ rep.form_quality ∧ rep.form_quality ≤ 1)

theorem scoreInv_init : ScoreInv initLoopState := by
  constructor <;> simp [initLoopState]

theorem scoreInv_step {exercise_type : String} {fps : ℚ} :
    ∀ (st : LoopState) (f : Option FrameData) (st' : LoopState),
      processFrame exercise_type fps st f = .ok st' → ScoreInv st → ScoreInv st' := by
  intro st f st' h hP
  cases f with
  | none =>
    rw [processFrame_none] at h
    cases h
    exact hP
  | some fd =>
    by_cases hex : exercise_type = "planks"
    · subst hex
      obtain ⟨hrep, _, _, _, hscores⟩ := processFrame_ok_planks h
      constructor
      · rw [hscores]
        intro q hq
        rcases List.mem_append.mp hq with hq | hq
        · exact hP.1 q hq
        · rw [List.mem_singleton.mp hq]
          exact analyze_form_score_bounds fd.keypoints fd.angles "planks"
      · rw [hrep]
        exact hP.2
    · obtain ⟨_, _, _, hscores, hreps⟩ := processFrame_ok_rep hex h
      constructor
      · rw [hscores]
        intro q hq
        rcases List.mem_append.mp hq with hq | hq
        · exact hP.1 q hq
        · rw [List.mem_singleton.mp hq]
          exact analyze_form_score_bounds fd.keypoints fd.angles exercise_type
      · rcases hreps with h1 | h1 <;> rw [h1]
        · exact hP.2
        · intro rep hrep
          rcases List.mem_append.mp hrep with hrep | hrep
          · exact hP.2 rep hrep
          · rw [List.mem_singleton.mp hrep]
            exact analyze_form_score_bounds fd.keypoints fd.angles exercise_type

/-- For a non-plank exercise the plank state is never touched. -/
theorem plank_untouched_step {exercise_type : String} {fps : ℚ}
    (hex : exercise_type ≠ "planks") :
    ∀ (st : LoopState) (f : Option FrameData) (st' : LoopState),
      processFrame exercise_type fps st f = .ok st' →
      st.plank = initLoopState.plank → st'.plank = initLoopState.plank := by
  intro st f st' h hP
  cases f with
  | none =>
    rw [processFrame_none] at h
    cases h
    exact hP
  | some fd =>
    obtain ⟨hpl, _⟩ := processFrame_ok_rep hex h
    rw [hpl]
    exact hP

/-- For the plank exercise no repetition is ever recorded. -/
theorem reps_untouched_step {fps : ℚ} :
    ∀ (st : LoopState) (f : Option FrameData) (st' : LoopState),
      processFrame "planks" fps st f = .ok st' →
      st.repetitions = [] ∧ st.rep_count = 0 →
      st'.repetitions = [] ∧ st'.rep_count = 0 := by
  intro st f st' h hP
  cases f with
  | none =>
    rw [processFrame_none] at h
    cases h
    exact hP
  | some fd =>
    obtain ⟨hrep, hrc, _⟩ := processFrame_ok_planks h
    exact ⟨hrep.trans hP.1, hrc.trans hP.2⟩

/-! ## Evaluated runs used to discharge witness hypotheses -/

/-- Analysing the 2-frame, 5-frames-of-metadata, pose-free source as
squats succeeds with the aggregation of the final loop state. -/
theorem analyze_meta_ok : analyze_video_file src_meta "squats" = .ok resMeta := by
  norm_num [analyze_video_file, processAll, processFrame, src_meta, initLoopState,
    stMeta, resMeta, String.reduceEq, reduceCtorEq]

/-- Analysing the 1-frame pose-free source as planks succeeds. -/
theorem analyze_plank_nopose_ok :
    analyze_video_file src_nopose "planks" = .ok resPlankNopose := by
  norm_num [analyze_video_file, processAll, processFrame, src_nopose, initLoopState,
    stNopose, resPlankNopose, String.reduceEq, reduceCtorEq]

/-- Evaluation of the angle routine at collinear unit points: the
cosine is clipped to 1 and the angle is 0 degrees. -/
theorem calculate_angle_eval : calculate_angle (1, 0) (0, 0) (1, 0) = some 0 := by
  unfold calculate_angle clip
  norm_num [Real.sqrt_one, Real.arccos_one, min_self,
    max_eq_right (by norm_num : (-1 : ℝ) ≤ 1)]

/-! ## The claims -/

/-- C1: for squat analysis, the repetition state machine started in the
UNSET state and fed the primary-angle sequence [170,170,85,85,170,170]
one frame at a time emits exactly one repetition event, at the fifth
frame, where the primary angle crosses back above the 160-degree
up-threshold after having gone below the 90-degree down-threshold; and
the bootstrap UNSET transition never counts a repetition.  The third
conjunct runs the full `analyze_video_file` pipeline on a squat video
whose knee angles realise that primary-angle sequence. -/
theorem claim_C1 :
    (∀ a : ℚ, (repStep none a).1 = false) ∧
    repEventFrames [170, 170, 85, 85, 170, 170] = [5] ∧
    ((analyze_video_file src_squat_scenario "squats").toOption.map (fun r =>
        (r.total_reps, r.repetitions.map (fun rep => (rep.rep_number, rep.timestamp))))) =
      some (some 1, [(1, 5)]) := by
  refine ⟨?_, ?_, ?_⟩
  · intro a
    simp [repStep]
  · norm_num [repEventFrames, repEventFramesAux, repStep, rep_threshold_down,
      rep_threshold_up, reduceCtorEq, Option.some.injEq] <;> simp
  · norm_num [analyze_video_file, processAll, processFrame, analyze_form,
      count_repetitions, repStep, getD, hasKey, mkResult, src_squat_scenario,
      squat_frame, kp0, initLoopState, average_of, listMean, exercise_config_keys,
      rep_threshold_down, rep_threshold_up, String.reduceEq, reduceCtorEq,
      Option.some.injEq, Except.toOption] <;> simp <;> norm_num

/-- Witness for C1: the bootstrap transition at angle 170 emits no rep. -/
theorem claim_C1_witness : (repStep none 170).1 = false := claim_C1.1 170

/-- C2: the per-frame score of the form evaluator lies in the unit
interval for every keypoint frame, angle set and supported exercise
type, and consequently the aggregate `average_form_score` of every
successful analysis lies in the unit interval, and equals 0 when no
frame ever had a detected pose. -/
theorem claim_C2 :
    (∀ (keypoints : Keypoints) (angles : List (String × ℚ)) (exercise_type : String),
        exercise_type ∈ exercise_config_keys →
        0 ≤ (analyze_form keypoints angles exercise_type).1 ∧
        (analyze_form keypoints angles exercise_type).1 ≤ 1) ∧
    (∀ (src : FrameSource) (exercise_type : String) (r : AnalysisResult),
        analyze_video_file src exercise_type = .ok r →
        (0 ≤ r.average_form_score ∧ r.average_form_score ≤ 1) ∧
        ((∀ f ∈ src.frames, f = none) → r.average_form_score = 0)) := by
  constructor
  · intro keypoints angles exercise_type _
    exact analyze_form_score_bounds keypoints angles exercise_type
  · intro src exercise_type r h
    obtain ⟨hop, st, hpa, hr⟩ := analyze_ok_elim h
    have hinv : ScoreInv st :=
      processAll_ok_inv scoreInv_step src.frames initLoopState st hpa scoreInv_init
    have havg : r.average_form_score = average_of st.form_scores := by
      rw [hr]; simp [mkResult]
    constructor
    · rw [havg]
      unfold average_of
      by_cases hemp : st.form_scores = []
      · simp [hemp]
      · rw [if_neg hemp]
        exact ⟨listMean_nonneg (fun x hx => (hinv.1 x hx).1),
               listMean_le_one hemp (fun x hx => (hinv.1 x hx).2)⟩
    · intro hall
      obtain ⟨_, _, hlen⟩ := processAll_counts src.frames initLoopState st hpa
      have hcount : src.frames.countP (fun f => f.isSome) = 0 := by
        rw [List.countP_eq_zero]
        intro f hf
        rw [hall f hf]
        simp
      rw [hcount] at hlen
      have hemp : st.form_scores = [] := by
        have : st.form_scores.length = 0 := by simpa [initLoopState] using hlen
        exact List.length_eq_zero.mp this
      rw [havg, hemp]
      simp [average_of]

/-- Witness for C2 at concrete inputs: a squat frame with an empty
angle dict, and the pose-free two-frame analysis `resMeta`. -/
theorem claim_C2_witness :
    (0 ≤ (analyze_form kp0 [] "squats").1 ∧ (analyze_form kp0 [] "squats").1 ≤ 1) ∧
    ((0 ≤ resMeta.average_form_score ∧ resMeta.average_form_score ≤ 1) ∧
     ((∀ f ∈ src_meta.frames, f = none) → resMeta.average_form_score = 0)) :=
  ⟨claim_C2.1 kp0 [] "squats" (by simp [exercise_config_keys]),
   claim_C2.2 src_meta "squats" resMeta analyze_meta_ok⟩

/-- C3: a hold session opens exactly when no session is open and the
back angle is strictly inside (160, 190); it is unchanged while the
angle stays inside; it closes at the first frame whose angle leaves the
interval, with that frame timestamp as `end_time` and
`duration = end_time - start_time`; a session still open when the video
ends is closed at the final frame timestamp `frame_count / fps`; and the
back-angle sequence [150,165,175,175,150] yields exactly one session,
closed at the frame where the angle drops to 150. -/
theorem claim_C3 :
    (∀ (scores : List ℚ) (t : ℚ) (angles : List (String × ℚ)) (fb : List String)
        (ps : PlankState), ps.plank_start_time = none →
        is_plank_position angles = true →
        (plankStep scores t angles fb ps).plank_start_time = some t ∧
        (plankStep scores t angles fb ps).sessions = ps.sessions) ∧
    (∀ (scores : List ℚ) (t : ℚ) (angles : List (String × ℚ)) (fb : List String)
        (ps : PlankState), ps.plank_start_time = none →
        is_plank_position angles = false →
        plankStep scores t angles fb ps = ps) ∧
    (∀ (scores : List ℚ) (t : ℚ) (angles : List (String × ℚ)) (fb : List String)
        (ps : PlankState) (s : ℚ), ps.plank_start_time = some s →
        is_plank_position angles = true →
        (plankStep scores t angles fb ps).plank_start_time = some s ∧
        (plankStep scores t angles fb ps).sessions = ps.sessions) ∧
    (∀ (scores : List ℚ) (t : ℚ) (angles : List (String × ℚ)) (fb : List String)
        (ps : PlankState) (s : ℚ), ps.plank_start_time = some s →
        is_plank_position angles = false →
        (plankStep scores t angles fb ps).plank_start_time = none ∧
        (plankStep scores t angles fb ps).sessions = ps.sessions ++
          [{ start_time := s, end_time := t, duration := t - s,
             form_quality := plank_form_quality scores,
             feedback := ps.current_plank_feedback.dedup }]) ∧
    (∀ (fps : ℚ) (n : ℕ) (scores : List ℚ) (ps : PlankState) (s : ℚ),
        ps.plank_start_time = some s →
        (finalize_plank fps n scores ps).sessions = ps.sessions ++
          [{ start_time := s, end_time := (n : ℚ) / fps,
             duration := (n : ℚ) / fps - s,
             form_quality := plank_form_quality scores,
             feedback := ps.current_plank_feedback.dedup }]) ∧
    ((analyze_video_file src_plank_scenario "planks").toOption.map (fun r =>
        r.plank_sessions.map (fun s => (s.start_time, s.end_time, s.duration)))) =
      some [(2, 5, 3)] := by
  refine ⟨?_, ?_, ?_, ?_, ?_, ?_⟩
  · intro scores t angles fb ps h0 hin
    simp [plankStep, h0, hin]
  · intro scores t angles fb ps h0 hin
    simp [plankStep, h0, hin]
  · intro scores t angles fb ps s h0 hin
    simp [plankStep, h0, hin]
  · intro scores t angles fb ps s h0 hin
    simp [plankStep, h0, hin]
  · intro fps n scores ps s h0
    simp [finalize_plank, h0]
  · norm_num [analyze_video_file, processAll, processFrame, analyze_form, plankStep,
      is_plank_position, finalize_plank, getD, hasKey, mkResult, src_plank_scenario,
      plank_frame, kp0, initLoopState, plank_form_quality, lastN, listMean, average_of,
      String.reduceEq, reduceCtorEq, Option.some.injEq, Except.toOption] <;>
      simp <;> norm_num

/-- Witness for C3: opening at angle 170 and closing at angle 150. -/
theorem claim_C3_witness :
    ((plankStep [] 1 [("back_angle", 170)] []
        { plank_start_time := none, current_plank_feedback := [],
          sessions := [] }).plank_start_time = some 1 ∧
     (plankStep [] 1 [("back_angle", 170)] []
        { plank_start_time := none, current_plank_feedback := [],
          sessions := [] }).sessions = []) ∧
    ((plankStep [] 2 [("back_angle", 150)] []
        { plank_start_time := some 1, current_plank_feedback := [],
          sessions := [] }).plank_start_time = none ∧
     (plankStep [] 2 [("back_angle", 150)] []
        { plank_start_time := some 1, current_plank_feedback := [],
          sessions := [] }).sessions =
       [] ++ [{ start_time := 1, end_time := 2, duration := 2 - 1,
                form_quality := plank_form_quality [],
                feedback := List.dedup [] }]) :=
  ⟨claim_C3.1 [] 1 [("back_angle", 170)] [] _ rfl (by decide),
   claim_C3.2.2.2.1 [] 2 [("back_angle", 150)] [] _ 1 rfl (by decide)⟩

/-- C4: for a successful analysis, the consistency score equals 1 minus
the population standard deviation of the repetition qualities and lies
in the unit interval (it is at least 0 because each squared deviation of
unit-interval qualities is at most 1, not because of any explicit
clamp); with zero repetitions it is 1 by the `else 0` branch. -/
theorem claim_C4 :
    ∀ (src : FrameSource) (exercise_type : String) (r : AnalysisResult),
      analyze_video_file src exercise_type = .ok r →
      (r.repetitions = [] → consistency_score r = 1) ∧
      (r.repetitions ≠ [] →
        consistency_score r =
          1 - Real.sqrt ((listPopVariance
            (r.repetitions.map RepetitionData.form_quality) : ℚ) : ℝ) ∧
        0 ≤ consistency_score r ∧ consistency_score r ≤ 1) := by
  intro src exercise_type r h
  obtain ⟨hop, st, hpa, hr⟩ := analyze_ok_elim h
  have hinv : ScoreInv st :=
    processAll_ok_inv scoreInv_step src.frames initLoopState st hpa scoreInv_init
  have hrep : r.repetitions = st.repetitions := by
    rw [hr]; simp [mkResult]
  constructor
  · intro hemp
    simp [consistency_score, hemp]
  · intro hne
    have heq : consistency_score r =
        1 - Real.sqrt ((listPopVariance
          (r.repetitions.map RepetitionData.form_quality) : ℚ) : ℝ) := by
      simp [consistency_score, hne]
    have hq : ∀ x ∈ r.repetitions.map RepetitionData.form_quality, 0 ≤ x ∧ x ≤ 1 := by
      intro x hx
      obtain ⟨rep, hmem, rfl⟩ := List.mem_map.mp hx
      rw [hrep] at hmem
      exact hinv.2 rep hmem
    have hmapne : r.repetitions.map RepetitionData.form_quality ≠ [] := by
      simpa using hne
    have hvar1 : listPopVariance (r.repetitions.map RepetitionData.form_quality) ≤ 1 :=
      listPopVariance_le_one hmapne hq
    have hsd1 : Real.sqrt ((listPopVariance
        (r.repetitions.map RepetitionData.form_quality) : ℚ) : ℝ) ≤ 1 :=
      Real.sqrt_le_one.mpr (by exact_mod_cast hvar1)
    have hsd0 : (0:ℝ) ≤ Real.sqrt ((listPopVariance
        (r.repetitions.map RepetitionData.form_quality) : ℚ) : ℝ) :=
      Real.sqrt_nonneg _
    exact ⟨heq, by rw [heq]; linarith, by rw [heq]; linarith⟩

/-- Witness for C4: the pose-free analysis has no repetitions and
consistency score 1. -/
theorem claim_C4_witness : consistency_score resMeta = 1 :=
  (claim_C4 src_meta "squats" resMeta analyze_meta_ok).1
    (by simp [resMeta, mkResult, stMeta, initLoopState])

/-- C5 (code bug in the source): at a degenerate input with a
zero-length vector the Python code does not return 0.0 — numpy division
of zero by zero produces NaN with a warning instead of raising, so the
`except` fallback that would return 0.0 is never reached and the
function returns NaN (modelled `none`), although, as the claim says, no
exception aborts the frame. -/
theorem claim_C5 :
    calculate_angle (0, 0) (0, 0) (1, 0) = none ∧
    calculate_angle (0, 0) (0, 0) (1, 0) ≠ some 0 := by
  have h : calculate_angle (0, 0) (0, 0) (1, 0) = none := by
    unfold calculate_angle
    norm_num [Real.sqrt_zero]
  exact ⟨h, by rw [h]; simp⟩

/-- C6 counterexample: with the unsupported identifier "yoga" on a
source whose one decoded frame has no detected pose, the analysis
returns a successful result with `total_reps = 0` — it neither fails
before a frame is read nor refuses to return a result. -/
theorem claim_C6_counterexample :
    (analyze_video_file src_nopose "yoga").toOption.map
      (fun r => (r.exercise_type, r.total_reps)) = some ("yoga", some 0) := by
  norm_num [analyze_video_file, processAll, processFrame, src_nopose, initLoopState,
    mkResult, average_of, Except.toOption, String.reduceEq] <;> simp <;> norm_num

/-- C6 amended: `analyze_video_file` performs no upfront validation of
the exercise type.  With an unknown type the frames are still read: if
no frame has a detected pose the call returns a successful result (with
`total_reps = some 0`), and otherwise it fails only at the first frame
with a detected pose, with the `KeyError` raised by
`count_repetitions`, not with a dedicated unsupported-exercise error. -/
theorem claim_C6_amended :
    ∀ (src : FrameSource) (exercise_type : String),
      exercise_type ∉ exercise_config_keys → src.opened = true →
      ((∀ f ∈ src.frames, f = none) →
        (analyze_video_file src exercise_type).toOption.map
          (fun r => (r.exercise_type, r.total_reps)) = some (exercise_type, some 0)) ∧
      (∀ (l1 : List (Option FrameData)) (fd : FrameData)
          (l2 : List (Option FrameData)),
        src.frames = l1 ++ some fd :: l2 → (∀ f ∈ l1, f = none) →
        analyze_video_file src exercise_type = .error (.keyError exercise_type)) := by
  intro src exercise_type hx hop
  have hneq : exercise_type ≠ "planks" := by
    intro hh
    exact hx (by simp [hh, exercise_config_keys])
  have hopen : ¬ (src.opened = false) := by simp [hop]
  constructor
  · intro hall
    unfold analyze_video_file
    rw [if_neg hopen, processAll_all_none src.frames initLoopState hall]
    simp [mkResult, Except.toOption, initLoopState, hneq, average_of]
  · intro l1 fd l2 hsplit hnone
    unfold analyze_video_file
    rw [if_neg hopen, hsplit, processAll_unknown_error hx l1 fd l2 initLoopState hnone]

/-- Witness for C6: both branches of the amended claim at one-frame
sources, with and without a detected pose. -/
theorem claim_C6_witness :
    ((analyze_video_file src_nopose "yoga").toOption.map
        (fun r => (r.exercise_type, r.total_reps)) = some ("yoga", some 0)) ∧
    analyze_video_file src_pose "yoga" = .error (.keyError "yoga") := by
  have hx : "yoga" ∉ exercise_config_keys := by simp [exercise_config_keys]
  exact ⟨(claim_C6_amended src_nopose "yoga" hx rfl).1 (by simp [src_nopose]),
         (claim_C6_amended src_pose "yoga" hx rfl).2 [] fd_pose []
           (by simp [src_pose]) (by simp)⟩

/-- C7 counterexample: a source that opens but decodes zero frames does
not fail — the analysis returns a successful result with zeroed
metrics, contradicting the claim that an empty stream fails with an
unreadable-stream error before processing. -/
theorem claim_C7_counterexample :
    (analyze_video_file src_empty "squats").toOption.map
      (fun r => (r.total_frames, r.average_form_score, r.total_reps)) =
      some (0, 0, some 0) := by
  norm_num [analyze_video_file, processAll, src_empty, initLoopState, mkResult,
    average_of, Except.toOption, String.reduceEq] <;> simp <;> norm_num

/-- C7 amended: a source that does not open fails with
`ValueError("Could not open video file")` before any processing, but a
source that opens and yields zero frames is not rejected: the analysis
returns a successful result with zero pose frames, score 0, no
repetitions and no sessions. -/
theorem claim_C7_amended :
    ∀ (src : FrameSource) (exercise_type : String),
      (src.opened = false →
        analyze_video_file src exercise_type =
          .error (.valueError "Could not open video file")) ∧
      (src.opened = true → src.frames = [] →
        (analyze_video_file src exercise_type).toOption.map (fun r =>
          (r.total_frames, r.frames_with_pose, r.average_form_score,
           r.repetitions, r.plank_sessions)) =
        some (src.frame_count_prop, 0, 0, [], [])) := by
  intro src exercise_type
  constructor
  · intro hop
    unfold analyze_video_file
    rw [if_pos hop]
  · intro hop hfr
    have hopen : ¬ (src.opened = false) := by simp [hop]
    unfold analyze_video_file
    rw [if_neg hopen, hfr]
    by_cases hex : exercise_type = "planks" <;>
      simp [processAll, mkResult, initLoopState, average_of, Except.toOption,
        finalize_plank, hex]

/-- Witness for C7: the closed source fails, the empty source succeeds. -/
theorem claim_C7_witness :
    analyze_video_file src_closed "squats" =
      .error (.valueError "Could not open video file") ∧
    (analyze_video_file src_empty "squats").toOption.map (fun r =>
      (r.total_frames, r.frames_with_pose, r.average_form_score,
       r.repetitions, r.plank_sessions)) =
      some (src_empty.frame_count_prop, 0, 0, [], []) :=
  ⟨(claim_C7_amended src_closed "squats").1 rfl,
   (claim_C7_amended src_empty "squats").2 rfl rfl⟩

/-- C8: every successful analysis satisfies the exclusivity invariant:
for the rep-based types `total_reps` is populated while `plank_duration`
is absent and `plank_sessions` is empty, and for planks `plank_duration`
is populated while `total_reps` is absent and `repetitions` is empty. -/
theorem claim_C8 :
    ∀ (src : FrameSource) (exercise_type : String) (r : AnalysisResult),
      analyze_video_file src exercise_type = .ok r →
      ((exercise_type = "squats" ∨ exercise_type = "pushups" ∨
          exercise_type = "lunges") →
        r.total_reps.isSome = true ∧ r.plank_duration = none ∧
        r.plank_sessions = []) ∧
      (exercise_type = "planks" →
        r.plank_duration.isSome = true ∧ r.total_reps = none ∧
        r.repetitions = []) := by
  intro src exercise_type r h
  obtain ⟨hop, st, hpa, hr⟩ := analyze_ok_elim h
  constructor
  · intro hex
    have hneq : exercise_type ≠ "planks" := by
      rcases hex with h1 | h1 | h1 <;> simp [h1]
    have hplank : st.plank = initLoopState.plank :=
      processAll_ok_inv (plank_untouched_step hneq) src.frames initLoopState st hpa rfl
    subst hr
    refine ⟨by simp [mkResult, hneq], by simp [mkResult, hneq], ?_⟩
    simp [mkResult, hneq, hplank, initLoopState]
  · intro hex
    subst hex
    have hreps : st.repetitions = [] ∧ st.rep_count = 0 :=
      processAll_ok_inv reps_untouched_step src.frames initLoopState st hpa
        (by simp [initLoopState])
    subst hr
    exact ⟨by simp [mkResult], by simp [mkResult], by simp [mkResult, hreps.1]⟩

/-- Witness for C8: the squats analysis of `src_meta` and the planks
analysis of `src_nopose`. -/
theorem claim_C8_witness :
    (resMeta.total_reps.isSome = true ∧ resMeta.plank_duration = none ∧
      resMeta.plank_sessions = []) ∧
    (resPlankNopose.plank_duration.isSome = true ∧
      resPlankNopose.total_reps = none ∧ resPlankNopose.repetitions = []) :=
  ⟨(claim_C8 src_meta "squats" resMeta analyze_meta_ok).1 (Or.inl rfl),
   (claim_C8 src_nopose "planks" resPlankNopose analyze_plank_nopose_ok).2 rfl⟩

/-- C9 counterexample: `total_frames` of the result is the container
metadata `CAP_PROP_FRAME_COUNT` (5 for `src_meta`), not the number of
frames actually read by the loop (2 for `src_meta`), refuting the claim
that `total_frames` equals the number of frames actually read. -/
theorem claim_C9_counterexample :
    analyze_video_file src_meta "squats" = .ok resMeta ∧
    resMeta.total_frames = 5 ∧ src_meta.frames.length = 2 ∧
    resMeta.total_frames ≠ src_meta.frames.length := by
  refine ⟨analyze_meta_ok, ?_, ?_, ?_⟩ <;>
    norm_num [resMeta, mkResult, src_meta, stMeta, initLoopState]

/-- C9 amended: `total_frames` equals the metadata frame count reported
by the frame source, which can differ from the number of frames
actually decoded; `frames_with_pose` does equal the number of decoded
frames in which a pose was detected. -/
theorem claim_C9_amended :
    ∀ (src : FrameSource) (exercise_type : String) (r : AnalysisResult),
      analyze_video_file src exercise_type = .ok r →
      r.total_frames = src.frame_count_prop ∧
      r.frames_with_pose = src.frames.countP (fun f => f.isSome) := by
  intro src exercise_type r h
  obtain ⟨hop, st, hpa, hr⟩ := analyze_ok_elim h
  obtain ⟨_, hposes, _⟩ := processAll_counts src.frames initLoopState st hpa
  subst hr
  constructor
  · simp [mkResult]
  · simp only [mkResult]
    rw [hposes]
    simp [initLoopState]

/-- Witness for C9 at `src_meta`. -/
theorem claim_C9_witness :
    resMeta.total_frames = src_meta.frame_count_prop ∧
    resMeta.frames_with_pose = src_meta.frames.countP (fun f => f.isSome) :=
  claim_C9_amended src_meta "squats" resMeta analyze_meta_ok

/-- `math.degrees` of an `arccos` value is always between 0 and 180,
since `arccos` lands in `[0, pi]`. -/
theorem degrees_arccos_bounds (y : ℝ) :
    0 ≤ 180 / Real.pi * Real.arccos y ∧ 180 / Real.pi * Real.arccos y ≤ 180 := by
  have hx0 : 0 ≤ Real.arccos y := Real.arccos_nonneg y
  have hxpi : Real.arccos y ≤ Real.pi := Real.arccos_le_pi y
  have hpi : (0:ℝ) < Real.pi := Real.pi_pos
  constructor
  · positivity
  · calc 180 / Real.pi * Real.arccos y ≤ 180 / Real.pi * Real.pi :=
        mul_le_mul_of_nonneg_left hxpi (by positivity)
    _ = 180 := div_mul_cancel₀ 180 (ne_of_gt hpi)

/-- C10: every angle value actually produced by `calculate_angle` (the
inverse cosine of a value clipped to [-1,1], scaled to degrees) lies in
[0, 180]; consequently the strict tests against 190 degrees can never
hold for such a value, and on [0, 180] the plank in-position predicate
`160 < back_angle < 190` is equivalent to `160 < back_angle`. -/
theorem claim_C10 :
    (∀ (p1 p2 p3 : ℝ × ℝ) (θ : ℝ), calculate_angle p1 p2 p3 = some θ →
      (0 ≤ θ ∧ θ ≤ 180) ∧ ¬ (190 < θ) ∧ ((160 < θ ∧ θ < 190) ↔ 160 < θ)) ∧
    (∀ a : ℚ, 0 ≤ a → a ≤ 180 →
      (is_plank_position [("back_angle", a)] = true ↔ 160 < a)) := by
  constructor
  · intro p1 p2 p3 θ h
    simp only [calculate_angle] at h
    split_ifs at h with hc
    rw [Option.some.injEq] at h
    subst h
    obtain ⟨hθ0, hθ180⟩ := degrees_arccos_bounds _
    exact ⟨⟨hθ0, hθ180⟩, by linarith,
      ⟨fun hh => hh.1, fun hh => ⟨hh, by linarith⟩⟩⟩
  · intro a h0 h1
    have hg : getD [("back_angle", a)] "back_angle" 0 = a := by simp [getD]
    simp only [is_plank_position, hg, Bool.and_eq_true, decide_eq_true_eq]
    exact ⟨fun hh => hh.1, fun hh => ⟨hh, by linarith⟩⟩

/-- Witness for C10: the computed zero-degree angle at collinear points
and the plank predicate at 170 degrees. -/
theorem claim_C10_witness :
    (((0:ℝ) ≤ 0 ∧ (0:ℝ) ≤ 180) ∧ ¬ ((190:ℝ) < 0) ∧
      ((160 < (0:ℝ) ∧ (0:ℝ) < 190) ↔ 160 < (0:ℝ))) ∧
    (is_plank_position [("back_angle", (170:ℚ))] = true ↔ (160:ℚ) < 170) :=
  ⟨claim_C10.1 (1, 0) (0, 0) (1, 0) 0 calculate_angle_eval,
   claim_C10.2 170 (by norm_num) (by norm_num)⟩

end VisionService
